import Mathlib

set_option maxRecDepth 8192

/-!
Shallow embedding of `wide_deep_utils.py`: the Feature Transformation
Builder (`build_feature_columns` with helpers `_build_wide_columns` and
`_build_deep_columns`) and the Model Assembler (`build_model`).

Modelling conventions:
* TensorFlow feature-column objects are pure structural descriptions, so
  each `tf.feature_column.*` constructor is a constructor of the
  `FeatureColumn` inductive, recording exactly the arguments the source
  passes (column names, vocabularies, dimensions, norm bounds, shapes,
  bucket counts, dtypes).
* Python floats are modelled as real numbers; `user_dim ** .5` becomes
  `(user_dim : ℝ) ^ (0.5 : ℝ)` (real rpow).
* Embedding dimensions are modelled as `ℕ` (they are widths of embedding
  vectors); vocabulary tokens as integers (MovieLens ids).
* A raised `ValueError` is an `Except.error` carrying the message string.
* The `print` calls in `_build_deep_columns` are modelled by threading an
  explicit output trace: each function returns its value together with the
  list of lines it writes to stdout, in order.
-/

/-- Python value accepted for `item_feat_shape`: an int or an iterable of
ints (`None` is represented by `Option.none` at the call sites). -/
inductive ShapeSpec where
  | scalar (n : Int)
  | dims (l : List Int)
deriving DecidableEq

/-- Python value accepted for `item_feat_col`: `None`, a single column
name, or a list of column names (the source distinguishes the list case
with `isinstance(item_feat_col, list)`). -/
inductive ItemFeat where
  | none
  | one (name : String)
  | many (names : List String)
deriving DecidableEq

/-- Structural description of a `tf.feature_column` object, one constructor
per TensorFlow constructor the source calls, recording the arguments the
source passes. -/
inductive FeatureColumn where
  | categorical_column_with_vocabulary_list
      (key : String) (vocabulary_list : List Int)
  | crossed_column (keys : List FeatureColumn) (hash_bucket_size : Nat)
  | embedding_column (categorical_column : FeatureColumn)
      (dimension : Nat) (max_norm : ℝ)
  | numeric_column (key : String) (shape : Option ShapeSpec) (dtype : String)

/-- How Python `print` renders the `item_feat_col` value in the debug line
of `_build_deep_columns`: `None`, the bare string, or the list repr. -/
def render_item_feat : ItemFeat → String
  | ItemFeat.none => "None"
  | ItemFeat.one name => name
  | ItemFeat.many names =>
      "[" ++ String.intercalate ", " (names.map fun s => "'" ++ s ++ "'") ++ "]"

/-- `_build_wide_columns(user_ids, item_ids)`: one crossed column over the
two categorical columns with `hash_bucket_size=1000`. -/
def _build_wide_columns (user_ids item_ids : FeatureColumn) :
    List FeatureColumn :=
  [FeatureColumn.crossed_column [user_ids, item_ids] 1000]

/-- `_build_deep_columns(user_ids, item_ids, user_dim, item_dim,
item_feat_col, item_feat_shape)`: the two embedding columns (with
`max_norm = dim ** .5`), then — after the debug `print` of `item_feat_col`
— one numeric column per declared item feature (a loop with a `print` per
feature when `item_feat_col` is a list, a single numeric column
otherwise). Returns the columns together with the printed lines. -/
noncomputable def _build_deep_columns (user_ids item_ids : FeatureColumn)
    (user_dim item_dim : Nat) (item_feat_col : ItemFeat)
    (item_feat_shape : Option ShapeSpec) :
    List FeatureColumn × List String :=
  let deep_columns : List FeatureColumn :=
    [FeatureColumn.embedding_column user_ids user_dim
       ((user_dim : ℝ) ^ (0.5 : ℝ)),
     FeatureColumn.embedding_column item_ids item_dim
       ((item_dim : ℝ) ^ (0.5 : ℝ))]
  let printed : List String :=
    ["item_feat_col ::::::::  " ++ render_item_feat item_feat_col]
  match item_feat_col with
  | ItemFeat.none => (deep_columns, printed)
  | ItemFeat.many names =>
      (deep_columns ++ names.map (fun feat_nm =>
          FeatureColumn.numeric_column feat_nm item_feat_shape "float32"),
       printed ++ names.map (fun feat_nm => "feat_nm ::::::::  " ++ feat_nm))
  | ItemFeat.one name =>
      (deep_columns ++
         [FeatureColumn.numeric_column name item_feat_shape "float32"],
       printed)

/-- The `ValueError` message of `build_feature_columns` for an unknown
`model_type`. -/
def model_type_error_message : String :=
  "Model type should be either 'wide', 'deep', or 'wide_deep'"

/-- `build_feature_columns(users, items, user_col, item_col, item_feat_col,
user_dim, item_dim, item_feat_shape, model_type)`: builds the two
categorical vocabulary columns, then dispatches on `model_type`
(`'wide'` / `'deep'` / `'wide_deep'`, otherwise `ValueError`). Returns the
`(wide_columns, deep_columns)` result (or the error) together with the
lines printed to stdout. -/
noncomputable def build_feature_columns (users items : List Int)
    (user_col item_col : String) (item_feat_col : ItemFeat)
    (user_dim item_dim : Nat) (item_feat_shape : Option ShapeSpec)
    (model_type : String) :
    Except String (List FeatureColumn × List FeatureColumn) × List String :=
  let user_ids :=
    FeatureColumn.categorical_column_with_vocabulary_list user_col users
  let item_ids :=
    FeatureColumn.categorical_column_with_vocabulary_list item_col items
  if model_type = "wide" then
    (Except.ok (_build_wide_columns user_ids item_ids, []), [])
  else if model_type = "deep" then
    let d := _build_deep_columns user_ids item_ids user_dim item_dim
      item_feat_col item_feat_shape
    (Except.ok ([], d.1), d.2)
  else if model_type = "wide_deep" then
    let d := _build_deep_columns user_ids item_ids user_dim item_dim
      item_feat_col item_feat_shape
    (Except.ok (_build_wide_columns user_ids item_ids, d.1), d.2)
  else
    (Except.error model_type_error_message, [])

/-- Modelled from the spec: `constants.py` (providing `DEFAULT_USER_COL`)
is not among the provided source files; the spec only requires non-empty,
distinct column names for the user and item fields. -/
def DEFAULT_USER_COL : String := "userID"

/-- Modelled from the spec: `constants.py` (providing `DEFAULT_ITEM_COL`)
is not among the provided source files; the spec only requires non-empty,
distinct column names for the user and item fields. -/
def DEFAULT_ITEM_COL : String := "itemID"

/-- A call to `build_feature_columns` that gives only `users` and `items`
and leaves every other parameter at the default of the source's signature:
`user_col=DEFAULT_USER_COL`, `item_col=DEFAULT_ITEM_COL`,
`item_feat_col=None`, `user_dim=8`, `item_dim=8`, `item_feat_shape=None`,
`model_type='wide_deep'`. -/
noncomputable def build_feature_columns_with_defaults
    (users items : List Int) :
    Except String (List FeatureColumn × List FeatureColumn) × List String :=
  build_feature_columns users items DEFAULT_USER_COL DEFAULT_ITEM_COL
    ItemFeat.none 8 8 none "wide_deep"

/-- `tf.estimator.RunConfig(log_step_count_steps, save_checkpoints_steps)`
as constructed by `build_model`. -/
structure RunConfig where
  log_step_count_steps : Nat
  save_checkpoints_steps : Nat
deriving DecidableEq

/-- Structural description of the `tf.estimator` object `build_model`
returns, one constructor per estimator class, recording the arguments the
source passes (optimizers as their names or a stand-in string; the dropout
rate, a Python float, as a rational). -/
inductive Tf.Estimator where
  | LinearRegressor (model_dir : String) (config : RunConfig)
      (feature_columns : List FeatureColumn) (optimizer : String)
  | DNNRegressor (model_dir : String) (config : RunConfig)
      (feature_columns : List FeatureColumn) (hidden_units : List Nat)
      (optimizer : String) (dropout : ℚ) (batch_norm : Bool)
  | DNNLinearCombinedRegressor (model_dir : String) (config : RunConfig)
      (linear_feature_columns : List FeatureColumn)
      (linear_optimizer : String)
      (dnn_feature_columns : List FeatureColumn)
      (dnn_hidden_units : List Nat) (dnn_optimizer : String)
      (dnn_dropout : ℚ) (batch_norm : Bool)

/-- The `ValueError` message of `build_model` when both column lists are
empty (the source's triple-quoted string, indentation included). -/
def build_model_error_message : String :=
  "\n            To generate wide model, set wide_columns.\n            To generate deep model, set deep_columns.\n            To generate wide_deep model, set both wide_columns and deep_columns.\n            "

/-- `build_model(model_dir, wide_columns, deep_columns, linear_optimizer,
dnn_optimizer, dnn_hidden_units, dnn_dropout, dnn_batch_norm,
log_every_n_iter, save_checkpoints_steps)`: builds the `RunConfig`, then
dispatches on the emptiness pattern of the two column lists, raising
`ValueError` when both are empty. -/
def build_model (model_dir : String)
    (wide_columns deep_columns : List FeatureColumn)
    (linear_optimizer dnn_optimizer : String) (dnn_hidden_units : List Nat)
    (dnn_dropout : ℚ) (dnn_batch_norm : Bool)
    (log_every_n_iter save_checkpoints_steps : Nat) :
    Except String Tf.Estimator :=
  let config : RunConfig :=
    { log_step_count_steps := log_every_n_iter,
      save_checkpoints_steps := save_checkpoints_steps }
  if wide_columns.length > 0 ∧ deep_columns.length = 0 then
    Except.ok (Tf.Estimator.LinearRegressor model_dir config wide_columns
      linear_optimizer)
  else if wide_columns.length = 0 ∧ deep_columns.length > 0 then
    Except.ok (Tf.Estimator.DNNRegressor model_dir config deep_columns
      dnn_hidden_units dnn_optimizer dnn_dropout dnn_batch_norm)
  else if wide_columns.length > 0 ∧ deep_columns.length > 0 then
    Except.ok (Tf.Estimator.DNNLinearCombinedRegressor model_dir config
      wide_columns linear_optimizer deep_columns dnn_hidden_units
      dnn_optimizer dnn_dropout dnn_batch_norm)
  else
    Except.error build_model_error_message

/-- Whether a modelled call raised (`Except.error`). -/
def raises {α : Type} : Except String α → Bool
  | Except.error _ => true
  | Except.ok _ => false

/-- The pair of lengths `(wide, deep)` of a successful
`build_feature_columns` result, `none` when it raised. -/
def ok_lengths
    (r : Except String (List FeatureColumn × List FeatureColumn)) :
    Option (Nat × Nat) :=
  match r with
  | Except.ok p => some (p.1.length, p.2.length)
  | Except.error _ => none

/-- `pat` occurs verbatim inside `s`. -/
def mentions (s pat : String) : Prop :=
  ∃ a b : String, s = a ++ pat ++ b

/-- C1: `build_model` dispatches exactly by the emptiness pattern of the two
column lists: linear regressor for (non-empty, empty), deep regressor for
(empty, non-empty), combined regressor for (non-empty, non-empty), and a
`ValueError` whose message tells which flag populates which list when both
are empty. -/
theorem build_model_dispatches_by_emptiness (model_dir : String)
    (wide_columns deep_columns : List FeatureColumn)
    (linear_optimizer dnn_optimizer : String) (dnn_hidden_units : List Nat)
    (dnn_dropout : ℚ) (dnn_batch_norm : Bool)
    (log_every_n_iter save_checkpoints_steps : Nat) :
    (wide_columns ≠ [] → deep_columns = [] →
      build_model model_dir wide_columns deep_columns linear_optimizer
          dnn_optimizer dnn_hidden_units dnn_dropout dnn_batch_norm
          log_every_n_iter save_checkpoints_steps =
        Except.ok (Tf.Estimator.LinearRegressor model_dir
          ⟨log_every_n_iter, save_checkpoints_steps⟩ wide_columns
          linear_optimizer)) ∧
    (wide_columns = [] → deep_columns ≠ [] →
      build_model model_dir wide_columns deep_columns linear_optimizer
          dnn_optimizer dnn_hidden_units dnn_dropout dnn_batch_norm
          log_every_n_iter save_checkpoints_steps =
        Except.ok (Tf.Estimator.DNNRegressor model_dir
          ⟨log_every_n_iter, save_checkpoints_steps⟩ deep_columns
          dnn_hidden_units dnn_optimizer dnn_dropout dnn_batch_norm)) ∧
    (wide_columns ≠ [] → deep_columns ≠ [] →
      build_model model_dir wide_columns deep_columns linear_optimizer
          dnn_optimizer dnn_hidden_units dnn_dropout dnn_batch_norm
          log_every_n_iter save_checkpoints_steps =
        Except.ok (Tf.Estimator.DNNLinearCombinedRegressor model_dir
          ⟨log_every_n_iter, save_checkpoints_steps⟩ wide_columns
          linear_optimizer deep_columns dnn_hidden_units dnn_optimizer
          dnn_dropout dnn_batch_norm)) ∧
    (wide_columns = [] → deep_columns = [] →
      build_model model_dir wide_columns deep_columns linear_optimizer
          dnn_optimizer dnn_hidden_units dnn_dropout dnn_batch_norm
          log_every_n_iter save_checkpoints_steps =
        Except.error build_model_error_message ∧
      mentions build_model_error_message "set wide_columns" ∧
      mentions build_model_error_message "set deep_columns") := by
  refine ⟨fun hw hd => ?_, fun hw hd => ?_, fun hw hd => ?_, fun hw hd => ?_⟩
  · subst hd; simp [build_model, List.length_pos, hw]
  · subst hw; simp [build_model, List.length_pos, hd]
  · simp [build_model, List.length_pos, hw, hd]
  · subst hw; subst hd
    refine ⟨by simp [build_model],
      ⟨"\n            To generate wide model, ",
       ".\n            To generate deep model, set deep_columns.\n            To generate wide_deep model, set both wide_columns and deep_columns.\n            ",
       by decide⟩,
      ⟨"\n            To generate wide model, set wide_columns.\n            To generate deep model, ",
       ".\n            To generate wide_deep model, set both wide_columns and deep_columns.\n            ",
       by decide⟩⟩

/-- Concrete instantiation of `build_model_dispatches_by_emptiness`: all four
emptiness patterns at concrete inputs. -/
theorem build_model_dispatch_witness :
    build_model "dir" [FeatureColumn.numeric_column "w" none "float32"] []
        "Ftrl" "Adagrad" [128, 128] 0 true 1000 10000 =
      Except.ok (Tf.Estimator.LinearRegressor "dir" ⟨1000, 10000⟩
        [FeatureColumn.numeric_column "w" none "float32"] "Ftrl") ∧
    build_model "dir" [] [FeatureColumn.numeric_column "d" none "float32"]
        "Ftrl" "Adagrad" [128, 128] 0 true 1000 10000 =
      Except.ok (Tf.Estimator.DNNRegressor "dir" ⟨1000, 10000⟩
        [FeatureColumn.numeric_column "d" none "float32"] [128, 128]
        "Adagrad" 0 true) ∧
    build_model "dir" [FeatureColumn.numeric_column "w" none "float32"]
        [FeatureColumn.numeric_column "d" none "float32"]
        "Ftrl" "Adagrad" [128, 128] 0 true 1000 10000 =
      Except.ok (Tf.Estimator.DNNLinearCombinedRegressor "dir" ⟨1000, 10000⟩
        [FeatureColumn.numeric_column "w" none "float32"] "Ftrl"
        [FeatureColumn.numeric_column "d" none "float32"] [128, 128]
        "Adagrad" 0 true) ∧
    build_model "dir" [] [] "Ftrl" "Adagrad" [128, 128] 0 true 1000 10000 =
      Except.error build_model_error_message :=
  ⟨(build_model_dispatches_by_emptiness "dir" _ _ "Ftrl" "Adagrad" _ 0 true
      1000 10000).1 (List.cons_ne_nil _ _) rfl,
   (build_model_dispatches_by_emptiness "dir" _ _ "Ftrl" "Adagrad" _ 0 true
      1000 10000).2.1 rfl (List.cons_ne_nil _ _),
   (build_model_dispatches_by_emptiness "dir" _ _ "Ftrl" "Adagrad" _ 0 true
      1000 10000).2.2.1 (List.cons_ne_nil _ _) (List.cons_ne_nil _ _),
   ((build_model_dispatches_by_emptiness "dir" _ _ "Ftrl" "Adagrad" _ 0 true
      1000 10000).2.2.2 rfl rfl).1⟩

/-- C4: for every `model_type` outside the three accepted values,
`build_feature_columns` raises a `ValueError` whose message names `wide`,
`deep` and `wide_deep`. -/
theorem build_feature_columns_rejects_unknown_model_type
    (users items : List Int) (user_col item_col : String)
    (item_feat_col : ItemFeat) (user_dim item_dim : Nat)
    (item_feat_shape : Option ShapeSpec) (model_type : String)
    (h1 : model_type ≠ "wide") (h2 : model_type ≠ "deep")
    (h3 : model_type ≠ "wide_deep") :
    (build_feature_columns users items user_col item_col item_feat_col
        user_dim item_dim item_feat_shape model_type).1 =
      Except.error model_type_error_message ∧
    mentions model_type_error_message "wide" ∧
    mentions model_type_error_message "deep" ∧
    mentions model_type_error_message "wide_deep" :=
  ⟨by simp [build_feature_columns, h1, h2, h3],
   ⟨"Model type should be either '", "', 'deep', or 'wide_deep'", by decide⟩,
   ⟨"Model type should be either 'wide', '", "', or 'wide_deep'", by decide⟩,
   ⟨"Model type should be either 'wide', 'deep', or '", "'", by decide⟩⟩

/-- Concrete instantiation of
`build_feature_columns_rejects_unknown_model_type` at
`model_type='bogus'`. -/
theorem build_feature_columns_rejects_bogus :
    (build_feature_columns [1] [2] "userID" "itemID" ItemFeat.none 8 8 none
        "bogus").1 = Except.error model_type_error_message ∧
    mentions model_type_error_message "wide" ∧
    mentions model_type_error_message "deep" ∧
    mentions model_type_error_message "wide_deep" :=
  build_feature_columns_rejects_unknown_model_type [1] [2] "userID" "itemID"
    ItemFeat.none 8 8 none "bogus" (by decide) (by decide) (by decide)

/-- C5: for non-empty vocabularies, `'wide'` mode returns an empty deep list
and a wide list holding exactly one crossed column over the user and item
categorical columns with `hash_bucket_size=1000`, whatever the vocabulary
sizes. -/
theorem build_feature_columns_wide_single_cross
    (users items : List Int) (hu : users ≠ []) (hi : items ≠ [])
    (user_col item_col : String) (item_feat_col : ItemFeat)
    (user_dim item_dim : Nat) (item_feat_shape : Option ShapeSpec) :
    (build_feature_columns users items user_col item_col item_feat_col
        user_dim item_dim item_feat_shape "wide").1 =
      Except.ok
        ([FeatureColumn.crossed_column
            [FeatureColumn.categorical_column_with_vocabulary_list user_col
               users,
             FeatureColumn.categorical_column_with_vocabulary_list item_col
               items] 1000],
         []) := rfl

/-- Concrete instantiation of `build_feature_columns_wide_single_cross` on
vocabularies of sizes 3 and 2. -/
theorem build_feature_columns_wide_single_cross_witness :
    (build_feature_columns [1, 2, 3] [10, 20] "userID" "itemID" ItemFeat.none
        8 8 none "wide").1 =
      Except.ok
        ([FeatureColumn.crossed_column
            [FeatureColumn.categorical_column_with_vocabulary_list "userID"
               [1, 2, 3],
             FeatureColumn.categorical_column_with_vocabulary_list "itemID"
               [10, 20]] 1000],
         []) :=
  build_feature_columns_wide_single_cross [1, 2, 3] [10, 20]
    (List.cons_ne_nil _ _) (List.cons_ne_nil _ _) "userID" "itemID"
    ItemFeat.none 8 8 none

/-- C2 (code bug record): `_build_deep_columns` writes debug lines to
stdout — the output trace of `build_feature_columns` in `'deep'` mode is
non-empty, both without and with declared item features. -/
theorem build_feature_columns_prints_debug_output :
    (build_feature_columns [1] [2] "userID" "itemID" ItemFeat.none 8 8 none
        "deep").2 = ["item_feat_col ::::::::  None"] ∧
    (build_feature_columns [1] [2] "userID" "itemID"
        (ItemFeat.many ["f1", "f2"]) 8 8 none "deep").2 =
      ["item_feat_col ::::::::  ['f1', 'f2']",
       "feat_nm ::::::::  f1", "feat_nm ::::::::  f2"] :=
  ⟨rfl, rfl⟩

/-- C3 (counterexample): with `user_dim = 0` in `'deep'` mode, and with
`item_dim = 0` in `'wide_deep'` mode, `build_feature_columns` does not
raise — there is no dimension validation in this core. -/
theorem build_feature_columns_zero_dim_not_rejected :
    raises (build_feature_columns [1] [2] "userID" "itemID" ItemFeat.none 0 8
        none "deep").1 = false ∧
    raises (build_feature_columns [1] [2] "userID" "itemID" ItemFeat.none 8 0
        none "wide_deep").1 = false :=
  ⟨rfl, rfl⟩

/-- C3 (amended): `build_feature_columns` performs no validation of the
embedding dimensions: with `user_dim = 0` the `'deep'` and `'wide_deep'`
calls succeed, and the user embedding column is built with dimension `0`
passed through unchanged (its norm bound `0 ** .5`). -/
theorem build_feature_columns_zero_dim_passes_through
    (users items : List Int) (user_col item_col : String)
    (item_feat_col : ItemFeat) (item_dim : Nat)
    (item_feat_shape : Option ShapeSpec) :
    raises (build_feature_columns users items user_col item_col item_feat_col
        0 item_dim item_feat_shape "deep").1 = false ∧
    raises (build_feature_columns users items user_col item_col item_feat_col
        0 item_dim item_feat_shape "wide_deep").1 = false ∧
    ∃ rest, (build_feature_columns users items user_col item_col
        item_feat_col 0 item_dim item_feat_shape "deep").1 =
      Except.ok ([],
        FeatureColumn.embedding_column
          (FeatureColumn.categorical_column_with_vocabulary_list user_col
            users) 0 (((0 : ℕ) : ℝ) ^ (0.5 : ℝ)) :: rest) := by
  refine ⟨?_, ?_, ?_⟩
  · cases item_feat_col <;> rfl
  · cases item_feat_col <;> rfl
  · cases item_feat_col <;> exact ⟨_, rfl⟩

/-- C6: in `'deep'` mode the wide list is empty and the deep list has
`2 + n` entries for `n` declared item feature columns, and exactly `2`
entries when `item_feat_col` is `None`. -/
theorem build_feature_columns_deep_column_count
    (users items : List Int) (user_col item_col : String)
    (user_dim item_dim : Nat) (item_feat_shape : Option ShapeSpec)
    (names : List String) :
    ok_lengths (build_feature_columns users items user_col item_col
        (ItemFeat.many names) user_dim item_dim item_feat_shape "deep").1 =
      some (0, 2 + names.length) ∧
    ok_lengths (build_feature_columns users items user_col item_col
        ItemFeat.none user_dim item_dim item_feat_shape "deep").1 =
      some (0, 2) := by
  constructor
  · simp [build_feature_columns, _build_deep_columns, ok_lengths]
    omega
  · rfl

/-- C7: every embedding column `_build_deep_columns` builds has its norm
bound equal to the square root of its configured dimension. -/
theorem build_deep_columns_norm_bound_is_sqrt
    (user_ids item_ids : FeatureColumn) (user_dim item_dim : Nat)
    (item_feat_col : ItemFeat) (item_feat_shape : Option ShapeSpec) :
    (_build_deep_columns user_ids item_ids user_dim item_dim item_feat_col
        item_feat_shape).1.take 2 =
      [FeatureColumn.embedding_column user_ids user_dim
         (Real.sqrt user_dim),
       FeatureColumn.embedding_column item_ids item_dim
         (Real.sqrt item_dim)] := by
  have h : ∀ n : ℕ, ((n : ℝ) ^ (0.5 : ℝ)) = Real.sqrt n := fun n => by
    rw [show (0.5 : ℝ) = 1 / 2 by norm_num, ← Real.sqrt_eq_rpow]
  cases item_feat_col <;> simp [_build_deep_columns, h, List.take]

/-- C8: the Feature Transformation Builder is deterministic — in this
embedding transforms are pure structural descriptions and the builder a
pure function of its arguments, so two calls with identical arguments
return identical transform pairs (and identical output traces). -/
theorem build_feature_columns_deterministic
    (users items : List Int) (user_col item_col : String)
    (item_feat_col : ItemFeat) (user_dim item_dim : Nat)
    (item_feat_shape : Option ShapeSpec) (model_type : String) :
    build_feature_columns users items user_col item_col item_feat_col
        user_dim item_dim item_feat_shape model_type =
      build_feature_columns users items user_col item_col item_feat_col
        user_dim item_dim item_feat_shape model_type := rfl

/-- C9: in `'deep'` and `'wide_deep'` modes the deep list is ordered: user
embedding first, item embedding second, then one numeric column per name of
`item_feat_col` in declaration order. -/
theorem build_feature_columns_deep_column_order
    (users items : List Int) (user_col item_col : String)
    (user_dim item_dim : Nat) (item_feat_shape : Option ShapeSpec)
    (names : List String) :
    (build_feature_columns users items user_col item_col
        (ItemFeat.many names) user_dim item_dim item_feat_shape "deep").1 =
      Except.ok ([],
        FeatureColumn.embedding_column
            (FeatureColumn.categorical_column_with_vocabulary_list user_col
              users) user_dim ((user_dim : ℝ) ^ (0.5 : ℝ)) ::
          FeatureColumn.embedding_column
            (FeatureColumn.categorical_column_with_vocabulary_list item_col
              items) item_dim ((item_dim : ℝ) ^ (0.5 : ℝ)) ::
          names.map (fun feat_nm =>
            FeatureColumn.numeric_column feat_nm item_feat_shape
              "float32")) ∧
    (build_feature_columns users items user_col item_col
        (ItemFeat.many names) user_dim item_dim item_feat_shape
        "wide_deep").1 =
      Except.ok
        ([FeatureColumn.crossed_column
            [FeatureColumn.categorical_column_with_vocabulary_list user_col
               users,
             FeatureColumn.categorical_column_with_vocabulary_list item_col
               items] 1000],
         FeatureColumn.embedding_column
            (FeatureColumn.categorical_column_with_vocabulary_list user_col
              users) user_dim ((user_dim : ℝ) ^ (0.5 : ℝ)) ::
          FeatureColumn.embedding_column
            (FeatureColumn.categorical_column_with_vocabulary_list item_col
              items) item_dim ((item_dim : ℝ) ^ (0.5 : ℝ)) ::
          names.map (fun feat_nm =>
            FeatureColumn.numeric_column feat_nm item_feat_shape
              "float32")) :=
  ⟨rfl, rfl⟩

/-- C10: a call that gives only `users` and `items` uses the signature's
defaults: `model_type='wide_deep'` (both lists non-empty) and embedding
dimensions `user_dim = item_dim = 8`. -/
theorem build_feature_columns_defaults_wide_deep (users items : List Int) :
    ∃ wide deep : List FeatureColumn,
      (build_feature_columns_with_defaults users items).1 =
        Except.ok (wide, deep) ∧
      wide ≠ [] ∧ deep ≠ [] ∧
      deep =
        [FeatureColumn.embedding_column
           (FeatureColumn.categorical_column_with_vocabulary_list
             DEFAULT_USER_COL users) 8 (Real.sqrt 8),
         FeatureColumn.embedding_column
           (FeatureColumn.categorical_column_with_vocabulary_list
             DEFAULT_ITEM_COL items) 8 (Real.sqrt 8)] := by
  have h : (8 : ℝ) ^ (0.5 : ℝ) = Real.sqrt 8 := by
    rw [show (0.5 : ℝ) = 1 / 2 by norm_num, ← Real.sqrt_eq_rpow]
  refine ⟨_, _, rfl, List.cons_ne_nil _ _, List.cons_ne_nil _ _, ?_⟩
  simp [build_feature_columns_with_defaults, build_feature_columns,
    _build_deep_columns, h]
